import Mathlib

/-!
Shallow embedding of the `onlinecourse` Django app (models.py, views.py).
Database tables become lists of records; each view function becomes a pure
function from the database state (plus request data) to a new state and a
response value.  Primary keys are modelled as `Int` (Django auto ids),
grades as `Nat` (`PositiveIntegerField`).
-/

namespace OnlineCourse

/-- A row of the auth user table.  `id = none` models a not-yet-persisted
(anonymous) user, as tested by `user.id is not None` in `check_if_enrolled`.
`is_authenticated` mirrors Django's `request.user.is_authenticated`. -/
structure UserAccount where
  id : Option Int
  username : String
  is_authenticated : Bool
deriving Repr, DecidableEq

/-- A row of the `Course` table (models.py).  `is_enrolled` is the class
attribute defaulting to `False`, set per-viewer by `CourseListView`. -/
structure Course where
  id : Int
  name : String
  total_enrollment : Int
  is_enrolled : Bool := false
deriving Repr, DecidableEq

/-- A row of the `Lesson` table: `course` is a foreign key to `Course`. -/
structure Lesson where
  id : Int
  course_id : Int
deriving Repr, DecidableEq

/-- A row of the `Question` table: `lesson` is a foreign key to `Lesson`,
`grade` is a `PositiveIntegerField`. -/
structure Question where
  id : Int
  lesson_id : Int
  grade : Nat
deriving Repr, DecidableEq

/-- A row of the `Choice` table: `question` is a foreign key to `Question`. -/
structure Choice where
  id : Int
  question_id : Int
  is_correct : Bool
deriving Repr, DecidableEq

/-- A row of the `Enrollment` table: foreign keys to user and `Course`,
plus the `mode` field (choices audit/honor/BETA). -/
structure Enrollment where
  id : Int
  user_id : Int
  course_id : Int
  mode : String
deriving Repr, DecidableEq

/-- A row of the `Submission` table together with its many-to-many
`choices` link rows, kept as the list of linked choice ids. -/
structure Submission where
  id : Int
  enrollment_id : Int
  choice_ids : List Int
deriving Repr, DecidableEq

/-- The whole database state: one list per table. -/
structure DB where
  users : List UserAccount
  courses : List Course
  lessons : List Lesson
  questions : List Question
  choices : List Choice
  enrollments : List Enrollment
  submissions : List Submission
deriving Repr, DecidableEq

/-- The responses the embedded views can produce.  `serverError` stands for
an unhandled Python exception escaping the view (Django turns it into a
500 response); `notFound` is `get_object_or_404` failing. -/
inductive Response where
  | redirect (viewname : String) (args : List Int)
  | renderPage (template : String) (message : Option String)
  | renderExam (template : String) (grade : Nat) (selected_ids : List Int)
  | notFound
  | serverError
deriving Repr, DecidableEq

/-- Embeds `Question.is_get_score` (models.py lines 178-198):
`all_answers` is the count of this question's choices with
`is_correct=True`; `selected_correct` additionally requires the choice id
to be in `selected_ids` (`id__in=selected_ids`); returns `True` exactly
when the two counts agree. -/
def is_get_score (db : DB) (q : Question) (selected_ids : List Int) : Bool :=
  let all_answers :=
    (db.choices.filter (fun c => c.question_id == q.id && c.is_correct)).length
  let selected_correct :=
    (db.choices.filter (fun c =>
      (c.question_id == q.id && c.is_correct) && selected_ids.contains c.id)).length
  if all_answers == selected_correct then true else false

/-- Embeds `Course.get_all_questions` (models.py lines 87-92):
`Question.objects.filter(lesson__course=self)` — the questions whose lesson
belongs to this course. -/
def get_all_questions (db : DB) (course : Course) : List Question :=
  db.questions.filter (fun q =>
    db.lessons.any (fun l => l.id == q.lesson_id && l.course_id == course.id))

/-- Embeds `check_if_enrolled` (views.py lines 130-154): if `user.id is None` the
enrollment table is never consulted and the result is `False`; otherwise
the `Enrollment` rows matching the exact user+course pair are counted and
the result is `count > 0`. -/
def check_if_enrolled (db : DB) (user : UserAccount) (course : Course) : Bool :=
  match user.id with
  | none => false
  | some uid =>
    let num_results :=
      (db.enrollments.filter (fun e =>
        e.user_id == uid && e.course_id == course.id)).length
    if num_results > 0 then true else false

/-- Embeds `get_object_or_404(Course, pk=course_id)`. -/
def getCourse (db : DB) (course_id : Int) : Option Course :=
  db.courses.find? (fun c => c.id == course_id)

/-- Embeds `get_object_or_404(Submission, pk=submission_id)`. -/
def getSubmission (db : DB) (submission_id : Int) : Option Submission :=
  db.submissions.find? (fun s => s.id == submission_id)

/-- A fresh primary key for a new `Enrollment` row. -/
def freshEnrollmentId (db : DB) : Int :=
  db.enrollments.foldl (fun m e => max m e.id) 0 + 1

/-- A fresh primary key for a new `Submission` row. -/
def freshSubmissionId (db : DB) : Int :=
  db.submissions.foldl (fun m s => max m s.id) 0 + 1

/-- A fresh primary key for a new user row. -/
def freshUserId (db : DB) : Int :=
  db.users.foldl (fun m u => max m (u.id.getD 0)) 0 + 1

/-- Embeds `course.total_enrollment += 1; course.save()`: persist the incremented
counter on the course row. -/
def incrementEnrollmentCount (db : DB) (course_id : Int) : DB :=
  { db with courses := db.courses.map (fun c =>
      if c.id == course_id then
        { c with total_enrollment := c.total_enrollment + 1 }
      else c) }

/-- Embeds `enroll` (views.py lines 204-232): fetch the course (404 if absent);
when the caller is not already enrolled and is authenticated, create an
`Enrollment` with `mode="honor"` and increment the course's
`total_enrollment`; always redirect to the course detail page. -/
def enroll (db : DB) (user : UserAccount) (course_id : Int) : DB × Response :=
  match getCourse db course_id with
  | none => (db, Response.notFound)
  | some course =>
    let is_enrolled := check_if_enrolled db user course
    let db' :=
      if !is_enrolled && user.is_authenticated then
        let e : Enrollment :=
          { id := freshEnrollmentId db
            user_id := user.id.getD 0
            course_id := course.id
            mode := "honor" }
        incrementEnrollmentCount
          { db with enrollments := db.enrollments ++ [e] } course.id
      else db
    (db', Response.redirect "onlinecourse:course_details" [course.id])

/-- Embeds `key.startswith("choice")`, computed on the character lists of the
strings. -/
def startsWithChoice (key : String) : Bool :=
  "choice".data.isPrefixOf key.data

/-- Accumulator loop of decimal-numeral parsing. -/
def parseDigitsAux : List Char → Nat → Option Nat
  | [], acc => some acc
  | c :: cs, acc =>
    if c.isDigit then parseDigitsAux cs (acc * 10 + (c.toNat - '0'.toNat))
    else none

/-- A nonempty run of decimal digits, as a number. -/
def parseDigits : List Char → Option Nat
  | [] => none
  | ds => parseDigitsAux ds 0

/-- Python's `int(value)` on a string: an optional minus sign followed by
decimal digits; `none` models the `ValueError` raised on malformed
input. -/
def parseInt (s : String) : Option Int :=
  match s.data with
  | '-' :: ds => (parseDigits ds).map (fun n => -(n : Int))
  | ds => (parseDigits ds).map (fun n => (n : Int))

/-- Embeds `extract_answers` (views.py lines 267-289): the values of the POST
fields whose key starts with `"choice"`, each converted with `int(...)`;
`none` models the `ValueError` Python raises on a non-numeric value. -/
def extract_answers (post : List (String × String)) : Option (List Int) :=
  (post.filter (fun kv => startsWithChoice kv.fst)).mapM
    (fun kv => parseInt kv.snd)

/-- Embeds `submit` (views.py lines 235-264): fetch the course (404 if absent);
`Enrollment.objects.get(user=user, course=course)` succeeds only when the
pair matches exactly one row (otherwise `DoesNotExist` /
`MultipleObjectsReturned` escapes as a server error); a `Submission` tied
to that enrollment is created, the extracted answers are attached via
`submission.choices.add(*answers)`, and the view redirects to the exam
result page.  If `int(...)` fails inside `extract_answers`, the freshly
created (still empty) `Submission` row remains and the error escapes. -/
def submit (db : DB) (user : UserAccount) (course_id : Int)
    (post : List (String × String)) : DB × Response :=
  match getCourse db course_id with
  | none => (db, Response.notFound)
  | some course =>
    match db.enrollments.filter (fun e =>
        some e.user_id == user.id && e.course_id == course.id) with
    | [enrollment] =>
      let submission : Submission :=
        { id := freshSubmissionId db
          enrollment_id := enrollment.id
          choice_ids := [] }
      match extract_answers post with
      | none =>
        ({ db with submissions := db.submissions ++ [submission] },
          Response.serverError)
      | some answers =>
        ({ db with submissions :=
            db.submissions ++ [{ submission with choice_ids := answers }] },
          Response.redirect "onlinecourse:exam_result"
            [course.id, submission.id])
    | _ => (db, Response.serverError)

/-- The ids of the submission's selected choices restricted to question `q`:
`selected_choices.filter(question=q)` as passed to `is_get_score` in
`show_exam_result`. -/
def selectedForQuestion (db : DB) (selected_ids : List Int) (q : Question) :
    List Int :=
  ((db.choices.filter (fun c =>
      selected_ids.contains c.id && c.question_id == q.id)).map Choice.id)

/-- The `for q in all_questions: if q.is_get_score(...): total_score += q.grade`
loop of `show_exam_result`. -/
def totalScore (db : DB) (qs : List Question) (selected_ids : List Int) : Nat :=
  qs.foldl (fun acc q =>
    if is_get_score db q (selectedForQuestion db selected_ids q) then
      acc + q.grade
    else acc) 0

/-- Embeds `all_questions.aggregate(sum_grade=Sum("grade"))`: SQL `SUM` is `NULL`
over an empty set, otherwise the sum of the grades. -/
def sumGradeAggregate (qs : List Question) : Option Nat :=
  match qs with
  | [] => none
  | _ => some ((qs.map Question.grade).sum)

/-- Embeds `show_exam_result` (views.py lines 292-330): fetch course and
submission (404 if absent); sum the grades of the fully correct questions;
`total_score * 100 // total_grade["sum_grade"]` — a `None` aggregate
(no questions) raises `TypeError` and a zero sum raises
`ZeroDivisionError`, both modelled as `serverError`; otherwise render the
result page with the floor-divided percentage. -/
def show_exam_result (db : DB) (course_id submission_id : Int) : Response :=
  match getCourse db course_id with
  | none => Response.notFound
  | some course =>
    match getSubmission db submission_id with
    | none => Response.notFound
    | some submission =>
      let selected_ids := submission.choice_ids
      let all_questions := get_all_questions db course
      let total_score := totalScore db all_questions selected_ids
      match sumGradeAggregate all_questions with
      | none => Response.serverError
      | some sum_grade =>
        if sum_grade == 0 then Response.serverError
        else
          Response.renderExam "onlinecourse/exam_result_bootstrap.html"
            (total_score * 100 / sum_grade) selected_ids

/-- HTTP method of a request. -/
inductive Method where
  | get
  | post
deriving Repr, DecidableEq

/-- The registration form fields read from `request.POST`. -/
structure RegistrationForm where
  username : String
  psw : String
  firstname : String
  lastname : String
deriving Repr, DecidableEq

/-- Embeds `registration_request` (views.py lines 16-71).  On GET it renders the
registration template.  On POST, `User.objects.get(username=username)`
succeeds exactly when an account with that username exists (usernames are
unique in Django's auth user table), and then the form is re-rendered with
the message `"User already exists."`; otherwise `create_user` adds one
account, the user is logged in, and the view redirects to the index.
The middle component is the username logged in by this request, if any. -/
def registration_request (db : DB) (method : Method) (form : RegistrationForm) :
    DB × Option String × Response :=
  match method with
  | Method.get =>
    (db, none,
      Response.renderPage "onlinecourse/user_registration_bootstrap.html" none)
  | Method.post =>
    let user_exist := db.users.any (fun u => u.username == form.username)
    if !user_exist then
      let newUser : UserAccount :=
        { id := some (freshUserId db)
          username := form.username
          is_authenticated := true }
      ({ db with users := db.users ++ [newUser] }, some form.username,
        Response.redirect "onlinecourse:index" [])
    else
      (db, none,
        Response.renderPage "onlinecourse/user_registration_bootstrap.html"
          (some "User already exists."))

/-- The descending-`total_enrollment` order used by
`Course.objects.order_by("-total_enrollment")`. -/
def courseOrder (a b : Course) : Prop :=
  b.total_enrollment ≤ a.total_enrollment

instance : DecidableRel courseOrder := fun a b =>
  inferInstanceAs (Decidable (b.total_enrollment ≤ a.total_enrollment))

instance : IsTotal Course courseOrder :=
  ⟨fun a b => le_total b.total_enrollment a.total_enrollment⟩

instance : IsTrans Course courseOrder :=
  ⟨fun _ _ _ h1 h2 => le_trans h2 h1⟩

/-- Embeds `CourseListView.get_queryset` (views.py lines 173-184): the first 10
courses ordered by descending `total_enrollment`; when the viewer is
authenticated, each course's `is_enrolled` attribute is set to the
viewer's enrollment status. -/
def get_queryset (db : DB) (user : UserAccount) : List Course :=
  let courses := (List.insertionSort courseOrder db.courses).take 10
  courses.map (fun course =>
    if user.is_authenticated then
      { course with is_enrolled := check_if_enrolled db user course }
    else course)

/-- The question's correct choices (`self.choices.filter(is_correct=True)`). -/
def correctChoices (db : DB) (q : Question) : List Choice :=
  db.choices.filter (fun c => c.question_id == q.id && c.is_correct)

/-- The worked example of the spec: a question with correct choices A (id 1)
and B (id 2) and one incorrect choice C (id 3). -/
def c1Q : Question := ⟨1, 1, 10⟩

/-- Database holding only the C1 example question and its three choices. -/
def c1DB : DB :=
  { users := []
    courses := []
    lessons := []
    questions := [c1Q]
    choices := [⟨1, 1, true⟩, ⟨2, 1, true⟩, ⟨3, 1, false⟩]
    enrollments := []
    submissions := [] }

/-- C1: for every question and selected set, `is_get_score` returns true iff
the number of the question's correct choices equals the number of its correct
choices whose ids are in the selected set; on the example with correct
choices {A,B} and total {A,B,C}, selecting {A,B} and {A,B,C} both score full
grade while selecting {A} scores zero — incorrect selections are never
cross-checked. -/
theorem is_get_score_spec :
    (∀ (db : DB) (q : Question) (selected_ids : List Int),
        is_get_score db q selected_ids = true ↔
          (correctChoices db q).length =
            ((correctChoices db q).filter
              (fun c => selected_ids.contains c.id)).length) ∧
    is_get_score c1DB c1Q [1, 2] = true ∧
    is_get_score c1DB c1Q [1, 2, 3] = true ∧
    is_get_score c1DB c1Q [1] = false := by
  refine ⟨fun db q selected_ids => ?_, by decide, by decide, by decide⟩
  simp [is_get_score, correctChoices, List.filter_filter, Bool.and_comm,
    Bool.and_assoc, Bool.and_left_comm]

/-- C4: `check_if_enrolled` returns true iff at least one `Enrollment` row
matches the exact user+course pair, and an anonymous user (no persisted id)
is reported as not enrolled (the definition returns in the `none` branch
before the enrollment table is consulted). -/
theorem check_if_enrolled_spec (db : DB) (user : UserAccount) (course : Course) :
    (check_if_enrolled db user course = true ↔
      ∃ uid, user.id = some uid ∧
        ∃ e ∈ db.enrollments, e.user_id = uid ∧ e.course_id = course.id) ∧
    (user.id = none → check_if_enrolled db user course = false) := by
  constructor
  · cases h : user.id with
    | none => simp [check_if_enrolled, h]
    | some uid =>
      simp [check_if_enrolled, h, List.length_pos_iff_ne_nil]
  · intro h
    simp [check_if_enrolled, h]

/-- The number of `Enrollment` rows for an exact user+course pair. -/
def pairCount (db : DB) (uid course_id : Int) : Nat :=
  (db.enrollments.filter (fun e =>
    e.user_id == uid && e.course_id == course_id)).length

/-- Lemma: `check_if_enrolled` for a persisted user tests whether the pair count is
positive. -/
lemma check_if_enrolled_some (db : DB) (user : UserAccount) (course : Course)
    (uid : Int) (hid : user.id = some uid) :
    check_if_enrolled db user course = decide (0 < pairCount db uid course.id) := by
  simp [check_if_enrolled, hid, pairCount]

/-- Incrementing the counter of the course with key `cid` commutes with
looking that course up. -/
lemma find?_map_increment (l : List Course) (cid : Int) (course : Course)
    (h : l.find? (fun c => c.id == cid) = some course) :
    (l.map (fun c => if c.id == cid then
        { c with total_enrollment := c.total_enrollment + 1 } else c)).find?
      (fun c => c.id == cid)
      = some { course with total_enrollment := course.total_enrollment + 1 } := by
  induction l with
  | nil => simp [List.find?] at h
  | cons a t ih =>
    rw [List.map_cons]
    by_cases ha : (a.id == cid) = true
    · rw [List.find?_cons_of_pos (p := fun c : Course => c.id == cid) _ ha] at h
      obtain rfl : a = course := by injection h
      rw [if_pos ha]
      exact List.find?_cons_of_pos (p := fun c : Course => c.id == cid) _ (by simpa using ha)
    · rw [List.find?_cons_of_neg (p := fun c : Course => c.id == cid) _ ha] at h
      rw [if_neg ha, List.find?_cons_of_neg (p := fun c : Course => c.id == cid) _ ha]
      exact ih h

/-- C3: `enroll` is idempotent at the user+course granularity: for an
authenticated (persisted) user, when an `Enrollment` row for the pair
already exists the database is unchanged; when none exists, exactly one
`Enrollment` with mode "honor" is appended and the course's
`total_enrollment` counter is incremented by one. -/
theorem enroll_idempotent (db : DB) (user : UserAccount) (course_id uid : Int)
    (course : Course) (hc : getCourse db course_id = some course)
    (hid : user.id = some uid) (hauth : user.is_authenticated = true) :
    (0 < pairCount db uid course.id → (enroll db user course_id).1 = db) ∧
    (pairCount db uid course.id = 0 →
      ∃ e : Enrollment,
        (enroll db user course_id).1.enrollments = db.enrollments ++ [e] ∧
        e.user_id = uid ∧ e.course_id = course.id ∧ e.mode = "honor" ∧
        pairCount (enroll db user course_id).1 uid course.id = 1 ∧
        getCourse (enroll db user course_id).1 course_id =
          some { course with total_enrollment := course.total_enrollment + 1 }) := by
  have hcid : course.id = course_id := by
    have := List.find?_some hc
    simpa using this
  constructor
  · intro hpos
    have hen : check_if_enrolled db user course = true := by
      rw [check_if_enrolled_some db user course uid hid]
      simpa using hpos
    simp [enroll, hc, hen]
  · intro hzero
    have hen : check_if_enrolled db user course = false := by
      rw [check_if_enrolled_some db user course uid hid]
      simp [hzero]
    have hnil : db.enrollments.filter (fun e =>
        e.user_id == uid && e.course_id == course.id) = [] := by
      have := hzero
      simpa [pairCount, List.length_eq_zero] using this
    refine ⟨{ id := freshEnrollmentId db, user_id := uid,
              course_id := course.id, mode := "honor" }, ?_, rfl, rfl, rfl, ?_, ?_⟩
    · simp [enroll, hc, hen, hauth, incrementEnrollmentCount, hid]
    · simp only [enroll, hc, hen, hauth]
      simp [pairCount, incrementEnrollmentCount, hid, List.filter_append, hnil]
    · simp only [enroll, hc, hen, hauth]
      simp only [getCourse, incrementEnrollmentCount, Bool.not_false,
        Bool.true_and, if_true]
      conv_lhs => rw [hcid]
      exact find?_map_increment db.courses course_id course hc

/-- A course used to exercise `enroll` for an authenticated user. -/
def c3Course : Course := { id := 1, name := "c3", total_enrollment := 5 }

/-- An authenticated, persisted user. -/
def c3User : UserAccount :=
  { id := some 7, username := "u7", is_authenticated := true }

/-- Database with one course and no enrollments. -/
def c3DB : DB :=
  { users := [c3User]
    courses := [c3Course]
    lessons := []
    questions := []
    choices := []
    enrollments := []
    submissions := [] }

/-- Witness for C3: on a concrete database with no prior enrollment,
`enroll` appends exactly one "honor" enrollment and bumps the counter
from 5 to 6. -/
theorem enroll_idempotent_witness :
    pairCount c3DB 7 1 = 0 ∧
    ∃ e : Enrollment,
      (enroll c3DB c3User 1).1.enrollments = c3DB.enrollments ++ [e] ∧
      e.user_id = 7 ∧ e.course_id = c3Course.id ∧ e.mode = "honor" ∧
      pairCount (enroll c3DB c3User 1).1 7 c3Course.id = 1 ∧
      getCourse (enroll c3DB c3User 1).1 1 =
        some { c3Course with total_enrollment := c3Course.total_enrollment + 1 } :=
  ⟨by decide,
    (enroll_idempotent c3DB c3User 1 7 c3Course (by decide) rfl rfl).2 (by decide)⟩

/-- C5: for an unauthenticated caller and an existing course, `enroll` is a
silent no-op: the database (enrollment rows and counters included) is
unchanged and the response is still the redirect to the course detail
page. -/
theorem enroll_anonymous_noop (db : DB) (user : UserAccount) (course_id : Int)
    (course : Course) (hc : getCourse db course_id = some course)
    (hauth : user.is_authenticated = false) :
    enroll db user course_id =
      (db, Response.redirect "onlinecourse:course_details" [course.id]) := by
  simp [enroll, hc, hauth]

/-- A course for the anonymous-enroll witness. -/
def c5Course : Course := { id := 2, name := "c5", total_enrollment := 3 }

/-- An anonymous user: no persisted id, not authenticated. -/
def c5User : UserAccount :=
  { id := none, username := "anon", is_authenticated := false }

/-- Database with one course for the anonymous-enroll witness. -/
def c5DB : DB :=
  { users := []
    courses := [c5Course]
    lessons := []
    questions := []
    choices := []
    enrollments := []
    submissions := [] }

/-- Witness for C5: a concrete anonymous enroll leaves the database alone
and redirects. -/
theorem enroll_anonymous_noop_witness :
    enroll c5DB c5User 2 =
      (c5DB, Response.redirect "onlinecourse:course_details" [c5Course.id]) :=
  enroll_anonymous_noop c5DB c5User 2 c5Course (by decide) rfl

/-- C7: a registration POST whose username already names an account creates
no second account and re-renders the form with "User already exists."; a
free username creates exactly one account, logs the user in, and redirects
to the course index. -/
theorem registration_request_spec (db : DB) (form : RegistrationForm) :
    ((∃ u ∈ db.users, u.username = form.username) →
      registration_request db Method.post form =
        (db, none,
          Response.renderPage "onlinecourse/user_registration_bootstrap.html"
            (some "User already exists."))) ∧
    ((∀ u ∈ db.users, u.username ≠ form.username) →
      ∃ newUser : UserAccount,
        registration_request db Method.post form =
          ({ db with users := db.users ++ [newUser] }, some form.username,
            Response.redirect "onlinecourse:index" []) ∧
        newUser.username = form.username) := by
  constructor
  · intro hex
    have hany : db.users.any (fun u => u.username == form.username) = true := by
      rcases hex with ⟨u, hu, hname⟩
      exact List.any_eq_true.2 ⟨u, hu, by simpa using hname⟩
    simp [registration_request, hany]
  · intro hfree
    have hany : db.users.any (fun u => u.username == form.username) = false := by
      rw [Bool.eq_false_iff]
      intro hcontra
      rcases List.any_eq_true.1 hcontra with ⟨u, hu, hname⟩
      exact hfree u hu (by simpa using hname)
    refine ⟨{ id := some (freshUserId db), username := form.username,
              is_authenticated := true }, ?_, rfl⟩
    simp [registration_request, hany]

/-- Lemma: `check_if_enrolled` depends on the course only through its primary
key. -/
lemma check_if_enrolled_congr (db : DB) (user : UserAccount) (c c' : Course)
    (h : c.id = c'.id) :
    check_if_enrolled db user c = check_if_enrolled db user c' := by
  unfold check_if_enrolled
  cases user.id <;> simp [h]

/-- C8: the course list view returns at most 10 courses, in descending
order of the `total_enrollment` counter, and for an authenticated viewer
every returned course carries that viewer's enrollment status in
`is_enrolled`. -/
theorem course_list_spec (db : DB) (user : UserAccount) :
    (get_queryset db user).length ≤ 10 ∧
    (get_queryset db user).Pairwise
      (fun a b => b.total_enrollment ≤ a.total_enrollment) ∧
    (user.is_authenticated = true →
      ∀ c ∈ get_queryset db user, c.is_enrolled = check_if_enrolled db user c) := by
  refine ⟨?_, ?_, ?_⟩
  · simp [get_queryset]
  · have hsorted : ((List.insertionSort courseOrder db.courses).take 10).Pairwise
        courseOrder :=
      List.Pairwise.sublist (List.take_sublist 10 _)
        (List.sorted_insertionSort courseOrder _)
    unfold get_queryset
    rw [List.pairwise_map]
    refine hsorted.imp_of_mem ?_
    intro a b _ _ hab
    by_cases h : user.is_authenticated = true <;>
      simpa [h, courseOrder] using hab
  · intro hauth c hc
    unfold get_queryset at hc
    rcases List.mem_map.1 hc with ⟨c0, _, rfl⟩
    rw [if_pos hauth]
    exact (check_if_enrolled_congr db user
      { c0 with is_enrolled := check_if_enrolled db user c0 } c0 rfl).symm

/-- The `total_score` loop equals the sum of the grades of the questions
answered fully correctly. -/
lemma totalScore_foldl (db : DB) (sel : List Int) :
    ∀ (qs : List Question) (acc : Nat),
      qs.foldl (fun acc q =>
        if is_get_score db q (selectedForQuestion db sel q) then acc + q.grade
        else acc) acc =
      acc + ((qs.filter (fun q =>
        is_get_score db q (selectedForQuestion db sel q))).map
          Question.grade).sum
  | [], acc => by simp
  | q :: qs, acc => by
    by_cases h : is_get_score db q (selectedForQuestion db sel q) = true
    · simp [h, totalScore_foldl db sel qs, Nat.add_assoc]
    · simp [h, totalScore_foldl db sel qs]

/-- Lemma: `totalScore` rewritten as a filtered sum. -/
lemma totalScore_eq (db : DB) (qs : List Question) (sel : List Int) :
    totalScore db qs sel =
      ((qs.filter (fun q =>
        is_get_score db q (selectedForQuestion db sel q))).map
          Question.grade).sum := by
  unfold totalScore
  simpa using totalScore_foldl db sel qs 0

/-- C2: when the course and submission exist, the course has questions and
their grade sum is nonzero, `show_exam_result` renders the exam page with
percentage = (sum of grades of fully correct questions) * 100, floor-divided
by the sum of all question grades of the course. -/
theorem show_exam_result_percent (db : DB) (cid sid : Int) (course : Course)
    (submission : Submission) (hc : getCourse db cid = some course)
    (hs : getSubmission db sid = some submission)
    (hne : get_all_questions db course ≠ [])
    (hnz : ((get_all_questions db course).map Question.grade).sum ≠ 0) :
    show_exam_result db cid sid =
      Response.renderExam "onlinecourse/exam_result_bootstrap.html"
        ((((get_all_questions db course).filter (fun q =>
            is_get_score db q
              (selectedForQuestion db submission.choice_ids q))).map
          Question.grade).sum * 100 /
          ((get_all_questions db course).map Question.grade).sum)
        submission.choice_ids := by
  obtain ⟨q0, qs0, hq⟩ := List.exists_cons_of_ne_nil hne
  have hagg : sumGradeAggregate (get_all_questions db course) =
      some (((get_all_questions db course).map Question.grade).sum) := by
    rw [hq]
    rfl
  simp only [show_exam_result, hc, hs, hagg, totalScore_eq]
  rw [if_neg (by simpa using hnz)]

/-- The C2 example course: three questions with grades 10, 20, 30. -/
def c2Course : Course := { id := 1, name := "c2", total_enrollment := 1 }

/-- The C2 example submission: correct choices selected for the questions
worth 10 and 20, an incorrect choice for the question worth 30. -/
def c2Submission : Submission :=
  { id := 1, enrollment_id := 1, choice_ids := [11, 21, 32] }

/-- Database for the C2 example. -/
def c2DB : DB :=
  { users := []
    courses := [c2Course]
    lessons := [⟨1, 1⟩]
    questions := [⟨1, 1, 10⟩, ⟨2, 1, 20⟩, ⟨3, 1, 30⟩]
    choices := [⟨11, 1, true⟩, ⟨12, 1, false⟩, ⟨21, 2, true⟩,
                ⟨31, 3, true⟩, ⟨32, 3, false⟩]
    enrollments := [⟨1, 7, 1, "honor"⟩]
    submissions := [c2Submission]
    }

/-- Witness for C2: with grades [10, 20, 30] and the learner fully correct
on the questions worth 10 and 20, the rendered percentage is
floor((30*100)/60) = 50. -/
theorem show_exam_result_percent_witness :
    show_exam_result c2DB 1 1 =
      Response.renderExam "onlinecourse/exam_result_bootstrap.html" 50
        [11, 21, 32] := by
  have h := show_exam_result_percent c2DB 1 1 c2Course c2Submission
    (by decide) (by decide) (by decide) (by decide)
  exact h.trans (by decide)

/-- C6: when the course exists, a submit with no `Enrollment` row for the
user+course pair leaves the database unchanged and surfaces a server error
(the unhandled `DoesNotExist`); with exactly one row it creates one
`Submission` tied to that enrollment, attaches the choice ids extracted
from the `"choice"`-prefixed POST fields, and redirects to the exam result
page. -/
theorem submit_spec (db : DB) (user : UserAccount) (course_id : Int)
    (course : Course) (post : List (String × String))
    (hc : getCourse db course_id = some course) :
    (db.enrollments.filter (fun e =>
        some e.user_id == user.id && e.course_id == course.id) = [] →
      submit db user course_id post = (db, Response.serverError)) ∧
    (∀ enrollment : Enrollment,
      db.enrollments.filter (fun e =>
        some e.user_id == user.id && e.course_id == course.id) = [enrollment] →
      ∀ answers : List Int, extract_answers post = some answers →
        ∃ s : Submission,
          (submit db user course_id post).1 =
            { db with submissions := db.submissions ++ [s] } ∧
          s.enrollment_id = enrollment.id ∧ s.choice_ids = answers ∧
          (submit db user course_id post).2 =
            Response.redirect "onlinecourse:exam_result" [course.id, s.id]) := by
  constructor
  · intro hnil
    simp [submit, hc, hnil]
  · intro enrollment hone answers hans
    refine ⟨{ id := freshSubmissionId db, enrollment_id := enrollment.id,
              choice_ids := answers }, ?_, rfl, rfl, ?_⟩ <;>
      simp [submit, hc, hone, hans]

/-- The C6 example course. -/
def c6Course : Course := { id := 1, name := "c6", total_enrollment := 1 }

/-- The C6 example user, enrolled in the course. -/
def c6User : UserAccount :=
  { id := some 7, username := "u7", is_authenticated := true }

/-- The C6 example enrollment row. -/
def c6Enrollment : Enrollment := { id := 4, user_id := 7, course_id := 1, mode := "honor" }

/-- Database for the C6 example. -/
def c6DB : DB :=
  { users := [c6User]
    courses := [c6Course]
    lessons := []
    questions := []
    choices := []
    enrollments := [c6Enrollment]
    submissions := [] }

/-- Witness for C6: a concrete submit with POST fields
`choice_1 = 11`, `other = 99`, `choice_2 = 21` attaches exactly [11, 21]. -/
theorem submit_spec_witness :
    ∃ s : Submission,
      (submit c6DB c6User 1
          [("choice_1", "11"), ("other", "99"), ("choice_2", "21")]).1 =
        { c6DB with submissions := c6DB.submissions ++ [s] } ∧
      s.enrollment_id = c6Enrollment.id ∧ s.choice_ids = [11, 21] ∧
      (submit c6DB c6User 1
          [("choice_1", "11"), ("other", "99"), ("choice_2", "21")]).2 =
        Response.redirect "onlinecourse:exam_result" [c6Course.id, s.id] :=
  (submit_spec c6DB c6User 1 c6Course
      [("choice_1", "11"), ("other", "99"), ("choice_2", "21")]
      (by decide)).2 c6Enrollment (by decide) [11, 21] (by decide)

/-- C9: a question with zero correct choices scores full for every selected
set, and therefore always contributes its full grade to the exam total. -/
theorem zero_correct_full_score (db : DB) (q : Question)
    (h : (db.choices.filter (fun c =>
      c.question_id == q.id && c.is_correct)).length = 0) :
    (∀ selected_ids : List Int, is_get_score db q selected_ids = true) ∧
    (∀ (qs : List Question) (sel : List Int),
      totalScore db (qs ++ [q]) sel = totalScore db qs sel + q.grade) := by
  have hnil : db.choices.filter (fun c =>
      c.question_id == q.id && c.is_correct) = [] :=
    List.length_eq_zero.1 h
  have hall : ∀ selected_ids : List Int,
      is_get_score db q selected_ids = true := by
    intro sel
    have h2 : db.choices.filter (fun c =>
        (c.question_id == q.id && c.is_correct) && sel.contains c.id) = [] := by
      rw [List.filter_eq_nil_iff] at hnil ⊢
      intro c hcmem hcp
      exact hnil c hcmem (Bool.and_eq_true _ _ ▸ hcp).1
    simp only [is_get_score, hnil, h2]
    rfl
  refine ⟨hall, ?_⟩
  intro qs sel
  unfold totalScore
  rw [List.foldl_append]
  simp [hall]

/-- The C9 example question: grade 25, no correct choice. -/
def c9Q : Question := ⟨1, 1, 25⟩

/-- Database for the C9 example: the question's only choice is incorrect. -/
def c9DB : DB :=
  { users := []
    courses := []
    lessons := []
    questions := [c9Q]
    choices := [⟨5, 1, false⟩]
    enrollments := []
    submissions := [] }

/-- Witness for C9: the zero-correct question scores full even when only an
incorrect choice is selected, and adds its grade to the running total. -/
theorem zero_correct_full_score_witness :
    is_get_score c9DB c9Q [5] = true ∧
    totalScore c9DB ([] ++ [c9Q]) [5] = totalScore c9DB [] [5] + c9Q.grade :=
  ⟨(zero_correct_full_score c9DB c9Q (by decide)).1 [5],
    (zero_correct_full_score c9DB c9Q (by decide)).2 [] [5]⟩

/-- C10: when the course and submission exist but the course has no
questions, the `Sum` aggregate is `NULL` and `show_exam_result` dies with
an unhandled `TypeError`; likewise a zero grade sum dies with
`ZeroDivisionError` — both surface as a server error instead of a result
page. -/
theorem exam_result_failure_spec (db : DB) (cid sid : Int) (course : Course)
    (submission : Submission) (hc : getCourse db cid = some course)
    (hs : getSubmission db sid = some submission) :
    (get_all_questions db course = [] →
      show_exam_result db cid sid = Response.serverError) ∧
    (((get_all_questions db course).map Question.grade).sum = 0 →
      show_exam_result db cid sid = Response.serverError) := by
  constructor
  · intro hempty
    simp [show_exam_result, hc, hs, hempty, sumGradeAggregate]
  · intro hzero
    cases hq : get_all_questions db course with
    | nil => simp [show_exam_result, hc, hs, hq, sumGradeAggregate]
    | cons q0 qs0 =>
      rw [hq] at hzero
      simp [show_exam_result, hc, hs, hq, sumGradeAggregate, hzero]
      simpa using hzero

/-- The C10 example course, which has no lessons and hence no questions. -/
def c10Course : Course := { id := 1, name := "c10", total_enrollment := 1 }

/-- The C10 example submission. -/
def c10Submission : Submission := { id := 1, enrollment_id := 1, choice_ids := [] }

/-- Database for the C10 example. -/
def c10DB : DB :=
  { users := []
    courses := [c10Course]
    lessons := []
    questions := []
    choices := []
    enrollments := [⟨1, 7, 1, "honor"⟩]
    submissions := [c10Submission] }

/-- Witness for C10: a course with no questions makes `show_exam_result`
fail with a server error. -/
theorem exam_result_failure_witness :
    get_all_questions c10DB c10Course = [] ∧
    show_exam_result c10DB 1 1 = Response.serverError :=
  ⟨by decide,
    (exam_result_failure_spec c10DB 1 1 c10Course c10Submission
      (by decide) (by decide)).1 (by decide)⟩

end OnlineCourse
